import Mathlib

/-
Verification of the authentication core and patient-creation handler of a
small clinical-record API (FastAPI + SQLModel).  The Python source is
embedded shallowly: dictionaries become association lists, machine time
becomes an `Int` count of seconds since the epoch, Python exceptions become
`Except`, and the relational store becomes explicit record lists.  Functions
keep their source names (`crear_access_token`, `verificar_password`,
`autenticar_usuario`, `obtener_usuario_actual`, `create_paciente`, ...).

External collaborators that the source delegates to (the python-jose JWT
codec, the passlib credential hasher, FastAPI's bearer-token extractor, the
SQLModel session) are modelled explicitly; each such definition documents
what it models.
-/

set_option autoImplicit false
set_option maxRecDepth 8000

deriving instance DecidableEq for Except

namespace ClinicalAPI

/-- A JSON claim value as used by this API: tokens carry a string subject
(`sub`) and an integer expiry (`exp`). -/
inductive ClaimVal where
  | str (s : String)
  | int (n : Int)
deriving DecidableEq, Repr

/-- A JWT payload: a Python dict from claim names to values, modelled as an
insertion-ordered association list (as Python dicts are). -/
abbrev Claims := List (String × ClaimVal)

/-- Python `d.get(k)`: the value stored under the first occurrence of `k`. -/
def clookup (d : Claims) (k : String) : Option ClaimVal :=
  match d with
  | [] => none
  | (k1, v) :: rest => if k1 = k then some v else clookup rest k

/-- Python `d[k] = v` / `d.update({k: v})`: replace the value in place when
the key is present, otherwise append the new entry. -/
def dictSet (d : Claims) (k : String) (v : ClaimVal) : Claims :=
  match d with
  | [] => [(k, v)]
  | (k1, v1) :: rest =>
      if k1 = k then (k, v) :: rest else (k1, v1) :: dictSet rest k v

/-- Mixing step of the concrete stand-in for HMAC-SHA256 (kept small with a
prime modulus so that concrete witnesses evaluate cheaply). -/
def mixNat (a n : Nat) : Nat := (a * 131 + n + 1) % 1000000007

/-- Fold a string into the running MAC state. -/
def mixStr (a : Nat) (s : String) : Nat :=
  s.data.foldl (fun b c => mixNat b c.toNat) (mixNat a 2)

/-- Fold a claim value into the running MAC state. -/
def mixVal (a : Nat) : ClaimVal → Nat
  | ClaimVal.str s => mixStr (mixNat a 3) s
  | ClaimVal.int n => mixNat (mixNat (mixNat a 4) n.natAbs) (if n < 0 then 1 else 0)

/-- Modelled from the spec: the symmetric (HMAC-SHA256 style) signature the
Token Codec computes over the serialized claims with the server-held secret.
Any concrete keyed function works for the properties proved here; what
matters is that `decode` accepts exactly the signature `encode` produced. -/
def jwtSign (secret : String) (payload : Claims) : Nat :=
  payload.foldl (fun a kv => mixVal (mixStr a kv.1) kv.2) (mixStr 7 secret)

/-- An issued token: the signed serialization of a claims dict
(`header.claims.signature` in the compact wire format; the constant header is
elided since the API fixes the algorithm). -/
structure JwtToken where
  payload : Claims
  sig : Nat
deriving DecidableEq, Repr

/-- The `jose.JWTError` hierarchy as raised by `jwt.decode`:
`invalidSignature` for a signature mismatch, `expired` for
`ExpiredSignatureError`, `claimsError` for a non-integer `exp` claim. -/
inductive JWTError where
  | invalidSignature
  | expired
  | claimsError
deriving DecidableEq, Repr

/-- Modelled from the spec: `jose.jwt.encode(claims, secret, algorithm)` —
serialize the claims and sign them with the secret. -/
def jwt_encode (payload : Claims) (secret : String) : JwtToken :=
  { payload := payload, sig := jwtSign secret payload }

/-- Modelled from the spec: `jose.jwt.decode(token, secret, algorithms)` —
verify the signature first (no claim is trusted before that), then reject
the token when its `exp` claim is at or before `now`; a token without an
`exp` claim is not expiry-checked. -/
def jwt_decode (t : JwtToken) (secret : String) (now : Int) : Except JWTError Claims :=
  if t.sig = jwtSign secret t.payload then
    match clookup t.payload ("exp") with
    | none => Except.ok t.payload
    | some (ClaimVal.int e) =>
        if e ≤ now then Except.error JWTError.expired else Except.ok t.payload
    | some (ClaimVal.str _) => Except.error JWTError.claimsError
  else Except.error JWTError.invalidSignature

/-- auth.py line 13: the hardcoded server secret. -/
def SECRET_KEY : String := "tu_clave_secreta_super_segura_cambiala_en_produccion"

/-- auth.py line 15. -/
def ACCESS_TOKEN_EXPIRE_MINUTES : Int := 30

/-- Python truthiness of a `timedelta | None` value (seconds): `None` and
`timedelta(0)` are falsy, every non-zero duration (negative included) is
truthy.  This is the test `if expires_delta:` performs. -/
def pyTruthy (td : Option Int) : Bool :=
  match td with
  | none => false
  | some d => d != 0

/-- auth.py lines 57-66, `crear_access_token(data, expires_delta)`.  Time is
passed explicitly (`now` = `datetime.utcnow()`), durations are seconds.  The
source copies `data` and mutates only the copy; the first component of the
result is the caller's dict after the call, so the embedding can state the
frame property. -/
def crear_access_token (data : Claims) (expires_delta : Option Int) (now : Int) :
    Claims × JwtToken :=
  let expire : Int :=
    if pyTruthy expires_delta then now + expires_delta.getD 0
    else now + 15 * 60
  let to_encode := dictSet data ("exp") (ClaimVal.int expire)
  (data, jwt_encode to_encode SECRET_KEY)

/-- Modelled from the spec: the `StoredUser` record of the User Directory
(the `Usuario` SQLModel table is imported by auth.py from a module not in
scope): unique id, unique username and email, opaque algorithm-tagged
password hash, active flag. -/
structure Usuario where
  usuarioID : Nat
  username : String
  email : String
  hashed_password : String
  activo : Bool
deriving DecidableEq, Repr

/-- auth.py lines 68-73: `SELECT ... WHERE Usuario.username == username`,
first row or `None`.  The session's user table is the list of stored rows. -/
def obtener_usuario_por_username (session : List Usuario) (username : String) :
    Option Usuario :=
  session.find? (fun u => u.username == username)

/-- Split a character list on the dollar separator, as the hasher's
self-describing `$argon2$salt$digest` format requires. -/
def splitDollar (cs : List Char) (cur : List Char) : List (List Char) :=
  match cs with
  | [] => [cur.reverse]
  | c :: rest =>
      if c = ('$') then cur.reverse :: splitDollar rest []
      else splitDollar rest (c :: cur)

/-- Base-26 digits of a bounded number, used to render a digest as text. -/
def natDigits (fuel n : Nat) : List Char :=
  match fuel with
  | 0 => []
  | fuel1 + 1 =>
      if n = 0 then [] else Char.ofNat (97 + n % 26) :: natDigits fuel1 (n / 26)

/-- Digest text of a MAC state (never empty, so well-formed hashes have a
non-empty digest segment). -/
def digestChars (n : Nat) : List Char := natDigits 64 (n + 1)

/-- Modelled from the spec: the memory-hard digest underlying the Credential
Hasher, keyed by salt and password.  Any concrete function serves the
properties proved here. -/
def argon2Digest (salt password : String) : Nat :=
  mixStr (mixStr 11 salt) password

/-- The errors the passlib context can raise from `verify`: per passlib's
documented contract, `CryptContext.verify` raises `UnknownHashError` (a
`ValueError`) when the hash string cannot be identified as one of the
configured schemes — it does not return `False` on malformed hashes. -/
inductive HashError where
  | unknownHash
deriving DecidableEq, Repr

/-- Modelled from the spec: `pwd_context.hash(password)` with the argon2
scheme — a self-describing `$argon2$salt$digest` string.  The fresh salt the
library draws per call is passed explicitly. -/
def pwd_context_hash (salt password : String) : String :=
  String.mk (('$') :: ("argon2").data ++ ('$') :: salt.data
    ++ ('$') :: digestChars (argon2Digest salt password))

/-- Identify a hash string as one of the context's configured schemes:
`$argon2$salt$digest` parses to its salt and digest segments; anything else
is unidentifiable. -/
def parseArgon2 (h : String) : Option (List Char × List Char) :=
  match splitDollar h.data [] with
  | [pre, alg, salt, dig] =>
      if pre.isEmpty && alg == ("argon2").data then some (salt, dig)
      else none
  | _ => none

/-- Modelled from passlib's documented behavior:
`pwd_context.verify(plain, hashed)` parses the self-describing hash; when it
matches the configured argon2 scheme, it recomputes the digest with the
embedded salt and compares; when the hash cannot be identified it raises
`UnknownHashError` instead of returning a Bool. -/
def pwd_context_verify (plain hashed : String) : Except HashError Bool :=
  match parseArgon2 hashed with
  | some (salt, dig) =>
      Except.ok (dig == digestChars (argon2Digest (String.mk salt) plain))
  | none => Except.error HashError.unknownHash

/-- auth.py lines 49-51: `obtener_password_hash` delegates to the context. -/
def obtener_password_hash (salt password : String) : String :=
  pwd_context_hash salt password

/-- auth.py lines 53-55: `verificar_password` delegates to
`pwd_context.verify` with no exception handling, so whatever the library
raises propagates to the caller. -/
def verificar_password (plain_password hashed_password : String) :
    Except HashError Bool :=
  pwd_context_verify plain_password hashed_password

/-- auth.py lines 75-82, `autenticar_usuario(session, username, password)`:
directory miss returns `None`; a failed verification returns `None`; an
exception from the hasher propagates. -/
def autenticar_usuario (session : List Usuario) (username password : String) :
    Except HashError (Option Usuario) :=
  match obtener_usuario_por_username session username with
  | none => Except.ok none
  | some usuario => do
      let ok ← verificar_password password usuario.hashed_password
      if !ok then pure none else pure (some usuario)

/-- A FastAPI `HTTPException`: status, detail, and the only header the source
ever attaches (`WWW-Authenticate`). -/
structure HTTPExc where
  status_code : Nat
  detail : String
  wwwAuthenticate : Option String
deriving DecidableEq, Repr

/-- auth.py lines 89-93: the 401 raised for every credential-validation
failure inside `obtener_usuario_actual`. -/
def credentials_exception : HTTPExc :=
  { status_code := 401
    detail := "No se pudieron validar las credenciales"
    wwwAuthenticate := some ("Bearer") }

/-- Modelled from the spec: FastAPI's `OAuth2PasswordBearer` with
`auto_error=True` rejects a request with no bearer credential with 401 and
`WWW-Authenticate: Bearer` before the dependency body runs. -/
def missing_credential_exception : HTTPExc :=
  { status_code := 401
    detail := "Not authenticated"
    wwwAuthenticate := some ("Bearer") }

/-- Modelled from the spec: an exception that is neither caught by the
dependency nor translated by a handler surfaces as the framework's generic
500 response. -/
def internal_server_error : HTTPExc :=
  { status_code := 500
    detail := "Internal Server Error"
    wwwAuthenticate := none }

/-- auth.py lines 84-109, `obtener_usuario_actual(token, session)`.  The
second component records the usernames looked up in the User Directory, in
order, so theorems can state whether a lookup happened.  `payload.get("sub")`
of a non-string claim fails `TokenData`'s pydantic validation, which
`except JWTError` does not catch, so it surfaces as a 500.  The source's
second `token_data.username is None` check is unreachable (the `None` case
already raised) and adds no branch here. -/
def obtener_usuario_actual (token : JwtToken) (session : List Usuario) (now : Int) :
    Except HTTPExc Usuario × List String :=
  match jwt_decode token SECRET_KEY now with
  | Except.error _ => (Except.error credentials_exception, [])
  | Except.ok payload =>
      match clookup payload ("sub") with
      | none => (Except.error credentials_exception, [])
      | some (ClaimVal.int _) => (Except.error internal_server_error, [])
      | some (ClaimVal.str username) =>
          match obtener_usuario_por_username session username with
          | none => (Except.error credentials_exception, [username])
          | some usuario => (Except.ok usuario, [username])

/-- auth.py lines 111-117, `obtener_usuario_activo_actual`: reject a resolved
but inactive user with 400 `Usuario inactivo`. -/
def obtener_usuario_activo_actual (token : JwtToken) (session : List Usuario) (now : Int) :
    Except HTTPExc Usuario × List String :=
  match obtener_usuario_actual token session now with
  | (Except.error e, tr) => (Except.error e, tr)
  | (Except.ok usuario, tr) =>
      if !usuario.activo then
        (Except.error { status_code := 400
                        detail := "Usuario inactivo"
                        wwwAuthenticate := none }, tr)
      else (Except.ok usuario, tr)

/-- The full Session Guard protecting `GET /usuarios/me` and the patient
routes: bearer extraction (`none` = no Authorization header), then the
dependency chain above. -/
def sessionGuard (auth : Option JwtToken) (session : List Usuario) (now : Int) :
    Except HTTPExc Usuario × List String :=
  match auth with
  | none => (Except.error missing_credential_exception, [])
  | some t => obtener_usuario_activo_actual t session now

/-- main.py lines 69-87, `POST /token`: authenticate, then issue a token for
`{"sub": username}` with an explicit `timedelta(minutes=ACCESS_TOKEN_EXPIRE_MINUTES)`. -/
def login (session : List Usuario) (username password : String) (now : Int) :
    Except HTTPExc JwtToken :=
  match autenticar_usuario session username password with
  | Except.error _ => Except.error internal_server_error
  | Except.ok none =>
      Except.error { status_code := 401
                     detail := "Usuario o contrasena incorrectos"
                     wwwAuthenticate := some ("Bearer") }
  | Except.ok (some usuario) =>
      Except.ok (crear_access_token [(("sub"), ClaimVal.str usuario.username)]
        (some (ACCESS_TOKEN_EXPIRE_MINUTES * 60)) now).2

/-- models.py lines 18-21. -/
inductive Sexo where
  | masculino
  | femenino
  | otro
deriving DecidableEq, Repr

/-- models.py lines 31-33: title plus nullable description. -/
structure AlergiaBase where
  sTitulo : String
  sDescripcion : Option String
deriving DecidableEq, Repr

/-- models.py lines 35-37. -/
structure EnfermedadBase where
  sTitulo : String
  sDescripcion : Option String
deriving DecidableEq, Repr

/-- Modelled from the spec: the `PacienteCreate` request schema (imported by
main.py from a module not in scope), as used by `create_paciente`: the
patient fields plus optional allergy and disease lists (the source's `None`
and `[]` behave identically in its truthiness tests, so both are the empty
list here).  Dates are epoch days. -/
structure PacienteCreate where
  sNombre : String
  sApellido : String
  dFechaNacimiento : Int
  eSexo : Sexo
  alergias : List AlergiaBase
  enfermedades : List EnfermedadBase
deriving DecidableEq, Repr

/-- models.py lines 58-59: a stored patient row with its assigned key. -/
structure PacienteRec where
  pacienteID : Nat
  sNombre : String
  sApellido : String
  dFechaNacimiento : Int
  eSexo : Sexo
deriving DecidableEq, Repr

/-- models.py lines 74-75. -/
structure AlergiaRec where
  alergiaID : Nat
  sTitulo : String
  sDescripcion : Option String
deriving DecidableEq, Repr

/-- models.py lines 84-85. -/
structure EnfermedadRec where
  enfermedadID : Nat
  sTitulo : String
  sDescripcion : Option String
deriving DecidableEq, Repr

/-- The relational store visible to `create_paciente`: the five tables it
writes (link rows are `(pacienteID, alergiaID)` / `(pacienteID, enfermedadID)`
pairs, models.py lines 44-51). -/
structure Store where
  pacientes : List PacienteRec
  alergias : List AlergiaRec
  enfermedades : List EnfermedadRec
  linksPA : List (Nat × Nat)
  linksPE : List (Nat × Nat)
deriving DecidableEq, Repr

/-- The empty set of uncommitted writes. -/
def emptyStore : Store :=
  { pacientes := [], alergias := [], enfermedades := [], linksPA := [], linksPE := [] }

/-- Commit: `session.commit()` publishes the pending writes into the committed store. -/
def mergeStore (a b : Store) : Store :=
  { pacientes := a.pacientes ++ b.pacientes
    alergias := a.alergias ++ b.alergias
    enfermedades := a.enfermedades ++ b.enfermedades
    linksPA := a.linksPA ++ b.linksPA
    linksPE := a.linksPE ++ b.linksPE }

/-- A SQLModel session mid-transaction: the committed store (untouched until
`commit`), the pending adds (visible after `flush`, discarded by
`rollback`), and a count of the fallible store operations performed so far,
used to inject a failure at any step. -/
structure Sess where
  committed : Store
  pending : Store
  ops : Nat
deriving DecidableEq, Repr

/-- An exception raised by some step of the multi-record creation (the
handler catches every `Exception`). -/
inductive PyExc where
  | raised
deriving DecidableEq, Repr

/-- main.py lines 114-121: add the patient row and `flush` to obtain its
assigned key.  `fail s.ops` injects an exception at this step. -/
def addFlushPaciente (fail : Nat → Bool) (inp : PacienteCreate) (s : Sess) :
    Except PyExc (Sess × Nat) :=
  if fail s.ops then Except.error PyExc.raised
  else
    let pid := s.committed.pacientes.length + s.pending.pacientes.length + 1
    Except.ok
      ({ s with
          pending := { s.pending with
            pacientes := s.pending.pacientes ++
              [{ pacienteID := pid, sNombre := inp.sNombre, sApellido := inp.sApellido
                 dFechaNacimiento := inp.dFechaNacimiento, eSexo := inp.eSexo }] }
          ops := s.ops + 1 }, pid)

/-- main.py lines 127-147: for each allergy, add the row, `flush` (a fallible
step), add the link row (both keys are set after the flush, so the source's
`is not None` guard always passes), and extend the response list. -/
def procAlergias (fail : Nat → Bool) (pid : Nat) :
    List AlergiaBase → Sess → List AlergiaBase → Except PyExc (Sess × List AlergiaBase)
  | [], s, acc => Except.ok (s, acc)
  | a :: rest, s, acc =>
      if fail s.ops then Except.error PyExc.raised
      else
        let aid := s.committed.alergias.length + s.pending.alergias.length + 1
        let s1 : Sess :=
          { s with
              pending := { s.pending with
                alergias := s.pending.alergias ++
                  [{ alergiaID := aid, sTitulo := a.sTitulo, sDescripcion := a.sDescripcion }]
                linksPA := s.pending.linksPA ++ [(pid, aid)] }
              ops := s.ops + 1 }
        procAlergias fail pid rest s1 (acc ++ [a])

/-- main.py lines 150-170: the disease loop, symmetric to the allergy loop. -/
def procEnfermedades (fail : Nat → Bool) (pid : Nat) :
    List EnfermedadBase → Sess → List EnfermedadBase → Except PyExc (Sess × List EnfermedadBase)
  | [], s, acc => Except.ok (s, acc)
  | e :: rest, s, acc =>
      if fail s.ops then Except.error PyExc.raised
      else
        let eid := s.committed.enfermedades.length + s.pending.enfermedades.length + 1
        let s1 : Sess :=
          { s with
              pending := { s.pending with
                enfermedades := s.pending.enfermedades ++
                  [{ enfermedadID := eid, sTitulo := e.sTitulo, sDescripcion := e.sDescripcion }]
                linksPE := s.pending.linksPE ++ [(pid, eid)] }
              ops := s.ops + 1 }
        procEnfermedades fail pid rest s1 (acc ++ [e])

/-- The response body of `POST /paciente` (main.py lines 174-182); the
`PacienteResponse` schema itself is imported from a module not in scope and
is reconstructed from its use. -/
structure PacienteResponse where
  pacienteID : Nat
  sNombre : String
  sApellido : String
  dFechaNacimiento : Int
  eSexo : Sexo
  alergias : List AlergiaBase
  enfermedades : List EnfermedadBase
deriving DecidableEq, Repr

/-- main.py lines 184-186: the handler's translation of any caught exception
after `session.rollback()` (the source interpolates the exception text into
the detail). -/
def rollback_500 : HTTPExc :=
  { status_code := 500
    detail := "Error: exception text"
    wwwAuthenticate := none }

/-- main.py lines 105-186, `POST /paciente`: create the patient, its
allergies, diseases and link rows inside one transaction; `session.commit()`
(also fallible) publishes everything at once; any exception triggers
`session.rollback()`, which discards all pending writes, and the handler
returns 500.  The result pairs the committed store after the request with
the HTTP outcome.  `fail` says which fallible store operations (each flush,
and the commit) raise. -/
def create_paciente (store : Store) (inp : PacienteCreate) (fail : Nat → Bool) :
    Store × Except HTTPExc PacienteResponse :=
  let attempt : Except PyExc (Store × PacienteResponse) := do
    let s0 : Sess := { committed := store, pending := emptyStore, ops := 0 }
    let (s1, pid) ← addFlushPaciente fail inp s0
    let (s2, als) ← procAlergias fail pid inp.alergias s1 []
    let (s3, ens) ← procEnfermedades fail pid inp.enfermedades s2 []
    if fail s3.ops then Except.error PyExc.raised
    else
      Except.ok (mergeStore s3.committed s3.pending,
        { pacienteID := pid, sNombre := inp.sNombre, sApellido := inp.sApellido
          dFechaNacimiento := inp.dFechaNacimiento, eSexo := inp.eSexo
          alergias := als, enfermedades := ens })
  match attempt with
  | Except.ok (st, resp) => (st, Except.ok resp)
  | Except.error _ => (store, Except.error rollback_500)

/-
Lemmas about the dict operations.
-/

theorem clookup_dictSet_self (d : Claims) (k : String) (v : ClaimVal) :
    clookup (dictSet d k v) k = some v := by
  induction d with
  | nil => simp [dictSet, clookup]
  | cons hd tl ih =>
      obtain ⟨k1, v1⟩ := hd
      by_cases h : k1 = k
      · simp [dictSet, h, clookup]
      · simp [dictSet, h, clookup, ih]

theorem clookup_dictSet_ne (d : Claims) (k k2 : String) (v : ClaimVal)
    (h : k2 ≠ k) :
    clookup (dictSet d k v) k2 = clookup d k2 := by
  induction d with
  | nil =>
      simp only [dictSet, clookup]
      rw [if_neg (fun e => h e.symm)]
  | cons hd tl ih =>
      obtain ⟨k1, v1⟩ := hd
      by_cases hk : k1 = k
      · subst hk
        simp only [dictSet, if_pos rfl, clookup]
        rw [if_neg (fun e => h e.symm), if_neg (fun e => h e.symm)]
      · simp only [dictSet, if_neg hk, clookup]
        by_cases hk2 : k1 = k2
        · rw [if_pos hk2, if_pos hk2]
        · rw [if_neg hk2, if_neg hk2, ih]

theorem jwt_decode_encode_exp (p : Claims) (secret : String) (e now : Int)
    (h : clookup p ("exp")= some (ClaimVal.int e)) :
    jwt_decode (jwt_encode p secret) secret now =
      if e ≤ now then Except.error JWTError.expired else Except.ok p := by
  simp [jwt_decode, jwt_encode, h]

/-- C1: a token (with an integer `exp` claim `e`) is accepted by the
`jwt.decode` call of `obtener_usuario_actual` if and only if its signature
verifies against the server secret and `e` is strictly in the future; and
for any issued token, any altered signature that no longer verifies makes
decode fail with a signature error — no false accept. -/
theorem jwt_accept_iff (payload : Claims) (sig : Nat) (e now : Int)
    (data : Claims) (td : Option Int) (t now2 : Int) (sig2 : Nat)
    (hexp : clookup payload ("exp") = some (ClaimVal.int e))
    (hne : sig2 ≠ ((crear_access_token data td now2).2).sig) :
    (jwt_decode { payload := payload, sig := sig } SECRET_KEY now = Except.ok payload
       ↔ (sig = jwtSign SECRET_KEY payload ∧ now < e))
    ∧ jwt_decode { payload := ((crear_access_token data td now2).2).payload, sig := sig2 }
        SECRET_KEY t = Except.error JWTError.invalidSignature := by
  constructor
  · simp only [jwt_decode, hexp]
    by_cases hs : sig = jwtSign SECRET_KEY payload
    · rw [if_pos hs]
      by_cases he : e ≤ now
      · rw [if_pos he]
        simp only [iff_def]
        constructor
        · intro h; exact absurd h (by simp)
        · intro h; omega
      · rw [if_neg he]
        constructor
        · intro _; exact ⟨hs, by omega⟩
        · intro _; rfl
    · rw [if_neg hs]
      simp only [iff_def]
      constructor
      · intro h; exact absurd h (by simp)
      · intro h; exact absurd h.1 hs
  · have hsig : ((crear_access_token data td now2).2).sig
        = jwtSign SECRET_KEY ((crear_access_token data td now2).2).payload := by
      simp [crear_access_token, jwt_encode]
    simp only [jwt_decode]
    rw [if_neg (fun h => hne (by rw [hsig]; exact h))]

/-- Concrete instance of C1: the honestly signed token for
`{sub: alice, exp: 100}` decodes at time 0, and bumping the signature by one
is rejected. -/
theorem jwt_accept_iff_witness :
    (jwt_decode { payload := [(("sub"), ClaimVal.str ("alice")), (("exp"), ClaimVal.int 100)],
                  sig := jwtSign SECRET_KEY [(("sub"), ClaimVal.str ("alice")), (("exp"), ClaimVal.int 100)] }
        SECRET_KEY 0
        = Except.ok [(("sub"), ClaimVal.str ("alice")), (("exp"), ClaimVal.int 100)]
       ↔ (jwtSign SECRET_KEY [(("sub"), ClaimVal.str ("alice")), (("exp"), ClaimVal.int 100)]
            = jwtSign SECRET_KEY [(("sub"), ClaimVal.str ("alice")), (("exp"), ClaimVal.int 100)]
          ∧ (0 : Int) < 100))
    ∧ jwt_decode { payload := ((crear_access_token [(("sub"), ClaimVal.str ("alice"))] (some 1800) 0).2).payload,
                   sig := ((crear_access_token [(("sub"), ClaimVal.str ("alice"))] (some 1800) 0).2).sig + 1 }
        SECRET_KEY 0 = Except.error JWTError.invalidSignature :=
  jwt_accept_iff
    [(("sub"), ClaimVal.str ("alice")), (("exp"), ClaimVal.int 100)]
    (jwtSign SECRET_KEY [(("sub"), ClaimVal.str ("alice")), (("exp"), ClaimVal.int 100)])
    100 0
    [(("sub"), ClaimVal.str ("alice"))] (some 1800) 0 0
    (((crear_access_token [(("sub"), ClaimVal.str ("alice"))] (some 1800) 0).2).sig + 1)
    (by decide)
    (Nat.succ_ne_self _)

/-- C2: a token issued by `crear_access_token` for claims `data` with
positive ttl `T` decodes successfully at any time strictly before
`now + T`, yielding the issued claims (every key other than `exp` — in
particular `sub` — round-trips unchanged), and decoding at or after
`now + T` fails with the expiry error. -/
theorem crear_access_token_roundtrip (data : Claims) (T now t1 t2 : Int)
    (k : String)
    (hT : 0 < T) (h1 : t1 < now + T) (h2 : now + T ≤ t2) (hk : k ≠ ("exp")) :
    jwt_decode (crear_access_token data (some T) now).2 SECRET_KEY t1
        = Except.ok (dictSet data ("exp") (ClaimVal.int (now + T)))
    ∧ clookup (dictSet data ("exp") (ClaimVal.int (now + T))) k = clookup data k
    ∧ clookup (dictSet data ("exp") (ClaimVal.int (now + T))) ("sub")
        = clookup data ("sub")
    ∧ jwt_decode (crear_access_token data (some T) now).2 SECRET_KEY t2
        = Except.error JWTError.expired := by
  have hTne : T ≠ 0 := by omega
  have htok : (crear_access_token data (some T) now).2
      = jwt_encode (dictSet data ("exp") (ClaimVal.int (now + T))) SECRET_KEY := by
    simp [crear_access_token, pyTruthy, hTne]
  refine ⟨?_, ?_, ?_, ?_⟩
  · have hlt : ¬ (now + T ≤ t1) := by omega
    rw [htok, jwt_decode_encode_exp _ SECRET_KEY (now + T) t1
      (clookup_dictSet_self data ("exp") (ClaimVal.int (now + T))), if_neg hlt]
  · exact clookup_dictSet_ne data ("exp") k (ClaimVal.int (now + T)) hk
  · exact clookup_dictSet_ne data ("exp") ("sub") (ClaimVal.int (now + T)) (by decide)
  · rw [htok, jwt_decode_encode_exp _ SECRET_KEY (now + T) t2
      (clookup_dictSet_self data ("exp") (ClaimVal.int (now + T))), if_pos h2]

/-- Concrete instance of C2: claims `{sub: alice}`, ttl 1800 s issued at
time 0 decode at time 10 and are expired at time 1800. -/
theorem crear_access_token_roundtrip_witness :
    jwt_decode (crear_access_token [(("sub"), ClaimVal.str ("alice"))] (some 1800) 0).2
        SECRET_KEY 10
        = Except.ok (dictSet [(("sub"), ClaimVal.str ("alice"))] ("exp") (ClaimVal.int (0 + 1800)))
    ∧ clookup (dictSet [(("sub"), ClaimVal.str ("alice"))] ("exp") (ClaimVal.int (0 + 1800))) ("sub")
        = clookup [(("sub"), ClaimVal.str ("alice"))] ("sub")
    ∧ clookup (dictSet [(("sub"), ClaimVal.str ("alice"))] ("exp") (ClaimVal.int (0 + 1800))) ("sub")
        = clookup [(("sub"), ClaimVal.str ("alice"))] ("sub")
    ∧ jwt_decode (crear_access_token [(("sub"), ClaimVal.str ("alice"))] (some 1800) 0).2
        SECRET_KEY 1800
        = Except.error JWTError.expired :=
  crear_access_token_roundtrip [(("sub"), ClaimVal.str ("alice"))] 1800 0 10 1800 ("sub")
    (by decide) (by decide) (by decide) (by decide)

/-- A stored user whose password hash was produced by the registration path
(`obtener_password_hash`), used as the concrete directory row in witnesses. -/
def usuarioAlice : Usuario :=
  { usuarioID := 1
    username := "alice"
    email := "alice@x.com"
    hashed_password := obtener_password_hash ("salt") ("pw123")
    activo := true }

/-- C3: `autenticar_usuario` returns `None` both when no user with the name
exists and when the user exists but the password fails verification, and the
two results are the identical value — indistinguishable to the caller. -/
theorem autenticar_usuario_indistinguishable (session : List Usuario)
    (u1 p1 u2 p2 : String) (usr : Usuario)
    (h1 : obtener_usuario_por_username session u1 = none)
    (h2 : obtener_usuario_por_username session u2 = some usr)
    (h3 : verificar_password p2 usr.hashed_password = Except.ok false) :
    autenticar_usuario session u1 p1 = Except.ok none
    ∧ autenticar_usuario session u2 p2 = Except.ok none
    ∧ autenticar_usuario session u1 p1 = autenticar_usuario session u2 p2 := by
  have hA : autenticar_usuario session u1 p1 = Except.ok none := by
    simp [autenticar_usuario, h1]
  have hB : autenticar_usuario session u2 p2 = Except.ok none := by
    simp only [autenticar_usuario, h2, h3]
    rfl
  exact ⟨hA, hB, by rw [hA, hB]⟩

/-- Concrete instance of C3: a directory holding only `alice`; a lookup miss
(`bob`) and a wrong password for `alice` both produce `Except.ok none`. -/
theorem autenticar_usuario_indistinguishable_witness :
    autenticar_usuario [usuarioAlice] ("bob") ("whatever") = Except.ok none
    ∧ autenticar_usuario [usuarioAlice] ("alice") ("wrongpw") = Except.ok none
    ∧ autenticar_usuario [usuarioAlice] ("bob") ("whatever")
        = autenticar_usuario [usuarioAlice] ("alice") ("wrongpw") :=
  autenticar_usuario_indistinguishable [usuarioAlice] ("bob") ("whatever")
    ("alice") ("wrongpw") usuarioAlice (by decide) (by decide) (by decide)

/-- Decides whether a hash string fails to parse as a hash of the configured
argon2 scheme (the condition under which passlib raises). -/
def malformedHash (h : String) : Bool :=
  (parseArgon2 h).isNone

/-- Counterexample to C4: on the malformed hash string `nothash`,
`verificar_password` propagates the hasher's `UnknownHashError` — it throws
rather than returning `false`. -/
theorem verificar_password_throws_on_malformed :
    verificar_password ("pw123") ("nothash") = Except.error HashError.unknownHash
    ∧ verificar_password ("pw123") ("nothash") ≠ Except.ok false := by
  refine ⟨by decide, by decide⟩

/-- C4 as amended: `verificar_password` returns a Bool (never throws) exactly
on hash strings well-formed for the configured argon2 scheme; on a malformed
hash string it raises `UnknownHashError` (propagated uncaught to the caller)
instead of returning `false`. -/
theorem verificar_password_amended (plain1 h1 plain2 h2 : String)
    (hm : malformedHash h1 = true) (hw : malformedHash h2 = false) :
    verificar_password plain1 h1 = Except.error HashError.unknownHash
    ∧ ∃ b, verificar_password plain2 h2 = Except.ok b := by
  constructor
  · have hp : parseArgon2 h1 = none := by
      unfold malformedHash at hm
      exact Option.isNone_iff_eq_none.mp hm
    unfold verificar_password pwd_context_verify
    rw [hp]
  · obtain ⟨v, hp⟩ : ∃ v, parseArgon2 h2 = some v := by
      unfold malformedHash at hw
      cases hq : parseArgon2 h2 with
      | none => rw [hq] at hw; simp at hw
      | some v => exact ⟨v, rfl⟩
    unfold verificar_password pwd_context_verify
    rw [hp]
    obtain ⟨salt, dig⟩ := v
    exact ⟨_, rfl⟩

/-- Concrete instance of the amended C4: `nothash` raises, while a hash
produced by the registration path verifies without raising. -/
theorem verificar_password_amended_witness :
    verificar_password ("abc") ("nothash") = Except.error HashError.unknownHash
    ∧ ∃ b, verificar_password ("pw123") (obtener_password_hash ("salt") ("pw123"))
        = Except.ok b :=
  verificar_password_amended ("abc") ("nothash") ("pw123")
    (obtener_password_hash ("salt") ("pw123")) (by decide) (by decide)

/-- C7: with no `expires_delta`, `crear_access_token` sets `exp` to
`now + 15` minutes; and every token issued by the login endpoint (which
passes `timedelta(minutes=ACCESS_TOKEN_EXPIRE_MINUTES)` explicitly) carries
`exp = now + 30` minutes. -/
theorem token_expiry_defaults (data : Claims) (now : Int)
    (session : List Usuario) (u p : String) (now2 : Int) (tok : JwtToken)
    (hlog : login session u p now2 = Except.ok tok) :
    clookup ((crear_access_token data none now).2).payload ("exp")
        = some (ClaimVal.int (now + 15 * 60))
    ∧ clookup tok.payload ("exp") = some (ClaimVal.int (now2 + 30 * 60)) := by
  constructor
  · simp [crear_access_token, pyTruthy, jwt_encode, clookup_dictSet_self]
  · unfold login at hlog
    cases hauth : autenticar_usuario session u p with
    | error e => rw [hauth] at hlog; cases hlog
    | ok o =>
        cases o with
        | none => rw [hauth] at hlog; cases hlog
        | some usuario =>
            rw [hauth] at hlog
            injection hlog with hlog1
            rw [← hlog1]
            have htr : pyTruthy (some (ACCESS_TOKEN_EXPIRE_MINUTES * 60)) = true := by decide
            simp only [crear_access_token, htr, if_pos, jwt_encode, Option.getD]
            rw [clookup_dictSet_self]
            norm_num [ACCESS_TOKEN_EXPIRE_MINUTES]

/-- The token the login endpoint issues for `alice` at time 0. -/
def tokenLoginAlice : JwtToken :=
  (crear_access_token [(("sub"), ClaimVal.str ("alice"))]
    (some (ACCESS_TOKEN_EXPIRE_MINUTES * 60)) 0).2

/-- Concrete instance of C7: the default expiry at time 5 is `5 + 900`
seconds, and the token `POST /token` issues for `alice` at time 0 expires at
`0 + 1800` seconds. -/
theorem token_expiry_defaults_witness :
    clookup ((crear_access_token [] none 5).2).payload ("exp")
        = some (ClaimVal.int (5 + 15 * 60))
    ∧ clookup tokenLoginAlice.payload ("exp") = some (ClaimVal.int (0 + 30 * 60)) :=
  token_expiry_defaults [] 5 [usuarioAlice] ("alice") ("pw123") 0 tokenLoginAlice
    (by decide)

/-- C9: the default-expiry branch is selected by Python truthiness, not a
`None` test: every falsy `expires_delta` — `None` and the explicit zero
duration alike — yields `exp = now + 15` minutes, never `now`, so a caller
cannot obtain a zero-lifetime token by passing a falsy duration. -/
theorem crear_access_token_falsy_default (data : Claims) (now : Int)
    (d : Option Int) (hf : pyTruthy d = false) :
    clookup ((crear_access_token data d now).2).payload ("exp")
        = some (ClaimVal.int (now + 15 * 60))
    ∧ now + 15 * 60 ≠ now := by
  constructor
  · simp [crear_access_token, hf, jwt_encode, clookup_dictSet_self]
  · omega

/-- Concrete instance of C9 at the explicit zero duration `timedelta(0)`. -/
theorem crear_access_token_falsy_default_witness :
    clookup ((crear_access_token [(("sub"), ClaimVal.str ("alice"))] (some 0) 7).2).payload ("exp")
        = some (ClaimVal.int (7 + 15 * 60))
    ∧ (7 : Int) + 15 * 60 ≠ 7 :=
  crear_access_token_falsy_default [(("sub"), ClaimVal.str ("alice"))] 7 (some 0)
    (by decide)

/-- C10: `crear_access_token` leaves the caller's dict unchanged (it copies
`data` and mutates only the copy), and the issued token's claims are exactly
the entries of `data` with the single `exp` key set: `exp` maps to the
computed expiry and every other key maps to exactly what `data` maps it to. -/
theorem crear_access_token_frame (data : Claims) (d : Option Int) (now : Int)
    (k : String) :
    (crear_access_token data d now).1 = data
    ∧ (if k = ("exp")
       then ∃ e, clookup ((crear_access_token data d now).2).payload k
              = some (ClaimVal.int e)
       else clookup ((crear_access_token data d now).2).payload k = clookup data k) := by
  refine ⟨rfl, ?_⟩
  by_cases hk : k = ("exp")
  · rw [if_pos hk, hk]
    exact ⟨(if pyTruthy d = true then now + d.getD 0 else now + 15 * 60),
      clookup_dictSet_self data ("exp") _⟩
  · rw [if_neg hk]
    simp only [crear_access_token, jwt_encode]
    exact clookup_dictSet_ne data ("exp") k _ hk

/-- A stored user with the active flag cleared, for inactive-account cases. -/
def usuarioBobInactivo : Usuario :=
  { usuarioID := 2
    username := "bob"
    email := "bob@x.com"
    hashed_password := obtener_password_hash ("s2") ("pw456")
    activo := false }

/-- C5: on the guarded routes, every Session Guard rejection for a missing
or invalid credential — no bearer token, decode failure, missing subject, or
unknown user — is HTTP 401 with `WWW-Authenticate: Bearer`, while a token
resolving to a stored user with `activo = false` yields exactly the 400
`Usuario inactivo` rejection, never a 401. -/
theorem session_guard_status_codes (session : List Usuario) (now : Int)
    (t1 : JwtToken) (err1 : JWTError)
    (t2 : JwtToken) (p2 : Claims)
    (t3 : JwtToken) (p3 : Claims) (u3 : String)
    (t4 : JwtToken) (p4 : Claims) (u4 : String) (usr4 : Usuario)
    (hd1 : jwt_decode t1 SECRET_KEY now = Except.error err1)
    (hd2 : jwt_decode t2 SECRET_KEY now = Except.ok p2)
    (hs2 : clookup p2 ("sub") = none)
    (hd3 : jwt_decode t3 SECRET_KEY now = Except.ok p3)
    (hs3 : clookup p3 ("sub") = some (ClaimVal.str u3))
    (hl3 : obtener_usuario_por_username session u3 = none)
    (hd4 : jwt_decode t4 SECRET_KEY now = Except.ok p4)
    (hs4 : clookup p4 ("sub") = some (ClaimVal.str u4))
    (hl4 : obtener_usuario_por_username session u4 = some usr4)
    (hin : usr4.activo = false) :
    (sessionGuard none session now).1 = Except.error missing_credential_exception
    ∧ missing_credential_exception.status_code = 401
    ∧ missing_credential_exception.wwwAuthenticate = some ("Bearer")
    ∧ (sessionGuard (some t1) session now).1 = Except.error credentials_exception
    ∧ (sessionGuard (some t2) session now).1 = Except.error credentials_exception
    ∧ (sessionGuard (some t3) session now).1 = Except.error credentials_exception
    ∧ credentials_exception.status_code = 401
    ∧ credentials_exception.wwwAuthenticate = some ("Bearer")
    ∧ (sessionGuard (some t4) session now).1
        = Except.error { status_code := 400
                         detail := "Usuario inactivo"
                         wwwAuthenticate := none }
    ∧ (400 : Nat) ≠ 401 := by
  refine ⟨rfl, rfl, rfl, ?_, ?_, ?_, rfl, rfl, ?_, by decide⟩
  · simp [sessionGuard, obtener_usuario_activo_actual, obtener_usuario_actual, hd1]
  · simp [sessionGuard, obtener_usuario_activo_actual, obtener_usuario_actual, hd2, hs2]
  · simp [sessionGuard, obtener_usuario_activo_actual, obtener_usuario_actual,
      hd3, hs3, hl3]
  · simp [sessionGuard, obtener_usuario_activo_actual, obtener_usuario_actual,
      hd4, hs4, hl4, hin]

/-- Concrete instance of C5: against a directory holding active `alice` and
inactive `bob`, a missing header, a tampered signature, a token without
`sub`, and a token for unknown `carol` are all rejected 401 with the bearer
challenge, while a valid token for `bob` is rejected 400 `Usuario inactivo`. -/
theorem session_guard_status_codes_witness :
    (sessionGuard none [usuarioAlice, usuarioBobInactivo] 0).1
        = Except.error missing_credential_exception
    ∧ missing_credential_exception.status_code = 401
    ∧ missing_credential_exception.wwwAuthenticate = some ("Bearer")
    ∧ (sessionGuard (some { payload := [(("sub"), ClaimVal.str ("alice")), (("exp"), ClaimVal.int 100)],
                            sig := jwtSign SECRET_KEY [(("sub"), ClaimVal.str ("alice")), (("exp"), ClaimVal.int 100)] + 1 })
          [usuarioAlice, usuarioBobInactivo] 0).1 = Except.error credentials_exception
    ∧ (sessionGuard (some (jwt_encode [(("exp"), ClaimVal.int 100)] SECRET_KEY))
          [usuarioAlice, usuarioBobInactivo] 0).1 = Except.error credentials_exception
    ∧ (sessionGuard (some (jwt_encode [(("sub"), ClaimVal.str ("carol")), (("exp"), ClaimVal.int 100)] SECRET_KEY))
          [usuarioAlice, usuarioBobInactivo] 0).1 = Except.error credentials_exception
    ∧ credentials_exception.status_code = 401
    ∧ credentials_exception.wwwAuthenticate = some ("Bearer")
    ∧ (sessionGuard (some (jwt_encode [(("sub"), ClaimVal.str ("bob")), (("exp"), ClaimVal.int 100)] SECRET_KEY))
          [usuarioAlice, usuarioBobInactivo] 0).1
        = Except.error { status_code := 400
                         detail := "Usuario inactivo"
                         wwwAuthenticate := none }
    ∧ (400 : Nat) ≠ 401 :=
  session_guard_status_codes [usuarioAlice, usuarioBobInactivo] 0
    { payload := [(("sub"), ClaimVal.str ("alice")), (("exp"), ClaimVal.int 100)],
      sig := jwtSign SECRET_KEY [(("sub"), ClaimVal.str ("alice")), (("exp"), ClaimVal.int 100)] + 1 }
    JWTError.invalidSignature
    (jwt_encode [(("exp"), ClaimVal.int 100)] SECRET_KEY) [(("exp"), ClaimVal.int 100)]
    (jwt_encode [(("sub"), ClaimVal.str ("carol")), (("exp"), ClaimVal.int 100)] SECRET_KEY)
    [(("sub"), ClaimVal.str ("carol")), (("exp"), ClaimVal.int 100)] ("carol")
    (jwt_encode [(("sub"), ClaimVal.str ("bob")), (("exp"), ClaimVal.int 100)] SECRET_KEY)
    [(("sub"), ClaimVal.str ("bob")), (("exp"), ClaimVal.int 100)] ("bob")
    usuarioBobInactivo
    (by decide) (by decide) (by decide) (by decide) (by decide) (by decide)
    (by decide) (by decide) (by decide) (by decide)

/-- A stored user whose username is the empty string. -/
def usuarioSinNombre : Usuario :=
  { usuarioID := 3
    username := ""
    email := "vacio@x.com"
    hashed_password := obtener_password_hash ("s3") ("pw789")
    activo := true }

/-- Counterexample to C6: a validly signed token whose `sub` claim is the
empty string is not rejected at the subject-extraction step — the guard
performs a User Directory lookup for the empty username (the trace records
it) and even authorizes the request when such a user exists, instead of the
401-before-lookup the claim requires. -/
theorem empty_sub_reaches_directory :
    obtener_usuario_actual
        (jwt_encode [(("sub"), ClaimVal.str ("")), (("exp"), ClaimVal.int 100)] SECRET_KEY)
        [usuarioSinNombre] 0
      = (Except.ok usuarioSinNombre, [("")]) := by
  decide

/-- C6 as amended: only a token whose decoded claims lack the `sub` key is
rejected at the subject-extraction step — 401 invalid-credential with no
User Directory lookup; a decoded `sub` equal to the empty string passes that
step, the directory is consulted for the empty username, and (when that
lookup misses) the request is rejected 401 only at the user-resolution step,
after the lookup. -/
theorem extract_subject_amended (t1 : JwtToken) (p1 : Claims)
    (t2 : JwtToken) (p2 : Claims) (session : List Usuario) (now : Int)
    (hd1 : jwt_decode t1 SECRET_KEY now = Except.ok p1)
    (hs1 : clookup p1 ("sub") = none)
    (hd2 : jwt_decode t2 SECRET_KEY now = Except.ok p2)
    (hs2 : clookup p2 ("sub") = some (ClaimVal.str ("")))
    (hl : obtener_usuario_por_username session ("") = none) :
    obtener_usuario_actual t1 session now = (Except.error credentials_exception, [])
    ∧ obtener_usuario_actual t2 session now
        = (Except.error credentials_exception, [("")]) := by
  constructor
  · simp [obtener_usuario_actual, hd1, hs1]
  · simp [obtener_usuario_actual, hd2, hs2, hl]

/-- Concrete instance of the amended C6: with only `alice` stored, a token
without `sub` is rejected with an empty lookup trace, and a token with the
empty-string `sub` is rejected with the empty username in the lookup trace. -/
theorem extract_subject_amended_witness :
    obtener_usuario_actual (jwt_encode [(("exp"), ClaimVal.int 100)] SECRET_KEY)
        [usuarioAlice] 0 = (Except.error credentials_exception, [])
    ∧ obtener_usuario_actual
        (jwt_encode [(("sub"), ClaimVal.str ("")), (("exp"), ClaimVal.int 100)] SECRET_KEY)
        [usuarioAlice] 0
        = (Except.error credentials_exception, [("")]) :=
  extract_subject_amended
    (jwt_encode [(("exp"), ClaimVal.int 100)] SECRET_KEY) [(("exp"), ClaimVal.int 100)]
    (jwt_encode [(("sub"), ClaimVal.str ("")), (("exp"), ClaimVal.int 100)] SECRET_KEY)
    [(("sub"), ClaimVal.str ("")), (("exp"), ClaimVal.int 100)]
    [usuarioAlice] 0
    (by decide) (by decide) (by decide) (by decide) (by decide)

theorem addFlushPaciente_spec (fail : Nat → Bool) (inp : PacienteCreate)
    (s s1 : Sess) (pid : Nat)
    (h : addFlushPaciente fail inp s = Except.ok (s1, pid)) :
    s1.committed = s.committed
    ∧ s1.pending.pacientes.length = s.pending.pacientes.length + 1
    ∧ s1.pending.alergias = s.pending.alergias
    ∧ s1.pending.enfermedades = s.pending.enfermedades
    ∧ s1.pending.linksPA = s.pending.linksPA
    ∧ s1.pending.linksPE = s.pending.linksPE := by
  unfold addFlushPaciente at h
  by_cases hf : fail s.ops
  · rw [if_pos hf] at h; cases h
  · rw [if_neg hf] at h
    cases h
    simp

theorem procAlergias_spec (fail : Nat → Bool) (pid : Nat) :
    ∀ (l : List AlergiaBase) (s : Sess) (acc : List AlergiaBase)
      (s1 : Sess) (out : List AlergiaBase),
    procAlergias fail pid l s acc = Except.ok (s1, out) →
    s1.committed = s.committed
    ∧ s1.pending.pacientes = s.pending.pacientes
    ∧ s1.pending.alergias.length = s.pending.alergias.length + l.length
    ∧ s1.pending.linksPA.length = s.pending.linksPA.length + l.length
    ∧ s1.pending.enfermedades = s.pending.enfermedades
    ∧ s1.pending.linksPE = s.pending.linksPE := by
  intro l
  induction l with
  | nil =>
      intro s acc s1 out h
      unfold procAlergias at h
      cases h
      simp
  | cons a rest ih =>
      intro s acc s1 out h
      unfold procAlergias at h
      by_cases hf : fail s.ops
      · rw [if_pos hf] at h; cases h
      · rw [if_neg hf] at h
        obtain ⟨hc, hp, ha, hl, he, hpe⟩ := ih _ _ _ _ h
        refine ⟨hc, hp, ?_, ?_, he, hpe⟩
        · simp only [ha]
          simp [List.length_append]
          omega
        · simp only [hl]
          simp [List.length_append]
          omega

theorem procEnfermedades_spec (fail : Nat → Bool) (pid : Nat) :
    ∀ (l : List EnfermedadBase) (s : Sess) (acc : List EnfermedadBase)
      (s1 : Sess) (out : List EnfermedadBase),
    procEnfermedades fail pid l s acc = Except.ok (s1, out) →
    s1.committed = s.committed
    ∧ s1.pending.pacientes = s.pending.pacientes
    ∧ s1.pending.enfermedades.length = s.pending.enfermedades.length + l.length
    ∧ s1.pending.linksPE.length = s.pending.linksPE.length + l.length
    ∧ s1.pending.alergias = s.pending.alergias
    ∧ s1.pending.linksPA = s.pending.linksPA := by
  intro l
  induction l with
  | nil =>
      intro s acc s1 out h
      unfold procEnfermedades at h
      cases h
      simp
  | cons a rest ih =>
      intro s acc s1 out h
      unfold procEnfermedades at h
      by_cases hf : fail s.ops
      · rw [if_pos hf] at h; cases h
      · rw [if_neg hf] at h
        obtain ⟨hc, hp, ha, hl, he, hpe⟩ := ih _ _ _ _ h
        refine ⟨hc, hp, ?_, ?_, he, hpe⟩
        · simp only [ha]
          simp [List.length_append]
          omega
        · simp only [hl]
          simp [List.length_append]
          omega

/-- C8: `POST /paciente` is atomic.  Whatever the input and whichever store
operation (any flush, or the final commit) raises, the request either
returns 500 with the committed store exactly as it was — the rollback leaves
no partial records — or returns the created patient with the patient row,
one allergy row and one patient-allergy link per input allergy, and one
disease row and one patient-disease link per input disease, all committed
together. -/
theorem create_paciente_atomic (store : Store) (inp : PacienteCreate)
    (fail : Nat → Bool) :
    ((create_paciente store inp fail).1 = store
      ∧ ∃ e, (create_paciente store inp fail).2 = Except.error e
          ∧ e.status_code = 500)
    ∨ ((∃ r, (create_paciente store inp fail).2 = Except.ok r)
      ∧ (create_paciente store inp fail).1.pacientes.length
          = store.pacientes.length + 1
      ∧ (create_paciente store inp fail).1.alergias.length
          = store.alergias.length + inp.alergias.length
      ∧ (create_paciente store inp fail).1.linksPA.length
          = store.linksPA.length + inp.alergias.length
      ∧ (create_paciente store inp fail).1.enfermedades.length
          = store.enfermedades.length + inp.enfermedades.length
      ∧ (create_paciente store inp fail).1.linksPE.length
          = store.linksPE.length + inp.enfermedades.length) := by
  cases h1 : addFlushPaciente fail inp { committed := store, pending := emptyStore, ops := 0 } with
  | error ex =>
      left
      refine ⟨?_, ?_⟩
      · simp [create_paciente, Bind.bind, Except.bind, h1]
      · exact ⟨rollback_500, by simp [create_paciente, Bind.bind, Except.bind, h1], rfl⟩
  | ok pr1 =>
      obtain ⟨s1, pid⟩ := pr1
      cases h2 : procAlergias fail pid inp.alergias s1 [] with
      | error ex =>
          left
          refine ⟨?_, ?_⟩
          · simp [create_paciente, Bind.bind, Except.bind, h1, h2]
          · exact ⟨rollback_500, by simp [create_paciente, Bind.bind, Except.bind, h1, h2], rfl⟩
      | ok pr2 =>
          obtain ⟨s2, als⟩ := pr2
          cases h3 : procEnfermedades fail pid inp.enfermedades s2 [] with
          | error ex =>
              left
              refine ⟨?_, ?_⟩
              · simp [create_paciente, Bind.bind, Except.bind, h1, h2, h3]
              · exact ⟨rollback_500, by simp [create_paciente, Bind.bind, Except.bind, h1, h2, h3], rfl⟩
          | ok pr3 =>
              obtain ⟨s3, ens⟩ := pr3
              by_cases hf : fail s3.ops
              · left
                refine ⟨?_, ?_⟩
                · simp [create_paciente, Bind.bind, Except.bind, h1, h2, h3, hf]
                · exact ⟨rollback_500, by simp [create_paciente, Bind.bind, Except.bind, h1, h2, h3, hf], rfl⟩
              · right
                obtain ⟨c1, p1, a1, e1, la1, le1⟩ := addFlushPaciente_spec fail inp _ _ _ h1
                obtain ⟨c2, p2, a2, la2, e2, le2⟩ := procAlergias_spec fail pid _ _ _ _ _ h2
                obtain ⟨c3, p3, e3, le3, a3, la3⟩ := procEnfermedades_spec fail pid _ _ _ _ _ h3
                have hres : create_paciente store inp fail
                    = (mergeStore s3.committed s3.pending,
                       Except.ok { pacienteID := pid, sNombre := inp.sNombre
                                   sApellido := inp.sApellido
                                   dFechaNacimiento := inp.dFechaNacimiento
                                   eSexo := inp.eSexo
                                   alergias := als, enfermedades := ens }) := by
                  simp [create_paciente, Bind.bind, Except.bind, h1, h2, h3, hf]
                rw [hres]
                have hcommitted : s3.committed = store := by
                  rw [c3, c2, c1]
                refine ⟨⟨_, rfl⟩, ?_, ?_, ?_, ?_, ?_⟩
                · simp [mergeStore, hcommitted, p3, p2, p1, emptyStore]
                · simp [mergeStore, hcommitted]
                  rw [a3, a2, a1]
                  simp [emptyStore]
                · simp [mergeStore, hcommitted]
                  rw [la3, la2, la1]
                  simp [emptyStore]
                · simp [mergeStore, hcommitted]
                  rw [e3, e2, e1]
                  simp [emptyStore]
                · simp [mergeStore, hcommitted]
                  rw [le3, le2, le1]
                  simp [emptyStore]

end ClinicalAPI
